import Mathlib

/-!
Verification development for the Snips console manager
(`core/snips/SnipsConsoleManager.py`).

Part A embeds the training poll loop (`_handleTraining`) and the
download driver (`download`): the loop classifies the freshly fetched
training status on each tick and either terminates, waits, issues a
train command, or raises; `download` wraps the loop and the bundle
fetch in a try/except that clears the `SnipsAssistantDownload` event on
both the success and the failure path.

Part B embeds the authenticated request sender (`_req`), the login flow
(`_login` / `_getAccessToken`) and logout (`_logout`), with the remote
service modelled as an oracle assigning a response to each request in
the order requests are sent, and with a fuel parameter bounding the
mutual recursion between `_req`'s 401 handling and `_login`.
-/

namespace SnipsConsole

/-- Status of one sub-model (NLU or ASR) as reported by the remote
service: `needTraining` and `inProgress`, read fresh on every tick. -/
structure SubModelStatus where
  needTraining : Bool
  inProgress : Bool
deriving DecidableEq, Repr

/-- Aggregate training status for one assistant: one `SubModelStatus`
for the NLU sub-model and one for the ASR sub-model. -/
structure TrainingStatusResponse where
  nluStatus : SubModelStatus
  asrStatus : SubModelStatus
deriving DecidableEq, Repr

/-- The action a single poll tick takes, mirroring the if/elif/else
chain of `_handleTraining` (lines 138-157 of the source). -/
inductive TickResult where
  | done
  | wait
  | trainNLU
  | trainASR
  | inconsistent
deriving DecidableEq, Repr

/-- One tick of `_handleTraining`: the branch taken for a fetched
status, in the exact order the source tests the conditions. -/
def classify (ts : TrainingStatusResponse) : TickResult :=
  if !ts.nluStatus.needTraining && !ts.nluStatus.inProgress &&
     !ts.asrStatus.needTraining && !ts.asrStatus.inProgress then
    TickResult.done
  else if ts.nluStatus.inProgress || ts.asrStatus.inProgress then
    TickResult.wait
  else if ts.nluStatus.needTraining && !ts.nluStatus.inProgress &&
          !ts.asrStatus.inProgress then
    TickResult.trainNLU
  else if !ts.nluStatus.inProgress && ts.asrStatus.needTraining &&
          !ts.asrStatus.inProgress then
    TickResult.trainASR
  else
    TickResult.inconsistent

/-- A train command issued by the poller via `_trainAssistant`. -/
inductive Cmd where
  | trainNLU
  | trainASR
deriving DecidableEq, Repr

/-- How a run of the poll loop ends: the lock was cleared (`completed`),
an exception escaped the loop (`raised`: a failed status fetch or the
inconsistency branch), or the scripted status sequence was exhausted
while the lock was still set (`stillLooping`: the source loop would
keep polling). -/
inductive TrainOutcome where
  | completed
  | raised
  | stillLooping
deriving DecidableEq, Repr

/-- One scripted poll tick: the result of `_trainingStatus`, which
either returns a fresh status or raises (4xx status or transport
error, line 128 of the source). -/
def TickInput := Except Unit TrainingStatusResponse

/-- The poll loop of `_handleTraining` over a scripted sequence of
status fetches: returns the train commands issued, in order, and how
the loop ended. -/
def handleTraining : List TickInput → List Cmd × TrainOutcome
  | [] => ([], TrainOutcome.stillLooping)
  | tick :: rest =>
    match tick with
    | Except.error _ => ([], TrainOutcome.raised)
    | Except.ok ts =>
      match classify ts with
      | TickResult.done => ([], TrainOutcome.completed)
      | TickResult.wait => handleTraining rest
      | TickResult.trainNLU =>
        let r := handleTraining rest
        (Cmd.trainNLU :: r.1, r.2)
      | TickResult.trainASR =>
        let r := handleTraining rest
        (Cmd.trainASR :: r.1, r.2)
      | TickResult.inconsistent => ([], TrainOutcome.raised)

/-- State of the `SnipsAssistantDownload` event, with a counter of how
many times `clear()` has been called on it. -/
structure EventState where
  eventSet : Bool
  clearCalls : Nat
deriving DecidableEq, Repr

/-- The `clear()` call on the `SnipsAssistantDownload` event. -/
def clearDownloadEvent (ev : EventState) : EventState :=
  { eventSet := false, clearCalls := ev.clearCalls + 1 }

/-- Environment for one run of `download`: the scripted poll ticks,
whether the bundle fetch request succeeds, and whether writing the
bundle bytes to the temporary file succeeds. -/
structure DownloadEnv where
  ticks : List TickInput
  fetchOk : Bool
  writeOk : Bool

/-- The body of `download`'s try block after `_handleTraining` has been
accounted for: fetching the bundle and writing it, either of which can
raise. -/
def downloadTryTail (env : DownloadEnv) : Bool :=
  env.fetchOk && env.writeOk

/-- The `download` background task (lines 162-177): run the training
loop, then fetch and persist the bundle; on any raised exception,
broadcast the failure instead.  Returns `none` when the poll loop never
terminates (the task does not return), otherwise the boolean result of
`download`, together with the updated event state and whether the
failure broadcast was sent. -/
def download (env : DownloadEnv) (ev : EventState) :
    Option Bool × EventState × Bool :=
  match handleTraining env.ticks with
  | (_, TrainOutcome.stillLooping) => (none, ev, false)
  | (_, TrainOutcome.raised) => (some false, clearDownloadEvent ev, true)
  | (_, TrainOutcome.completed) =>
    if downloadTryTail env then
      (some true, clearDownloadEvent ev, false)
    else
      (some false, clearDownloadEvent ev, true)

/-- The `doDownload` entry point (lines 51-56): sets the
`SnipsAssistantDownload` event, then schedules `download` on a
background thread. -/
def doDownload (env : DownloadEnv) (ev : EventState) :
    Option Bool × EventState × Bool :=
  download env { ev with eventSet := true }

/-- The console user stored in `self._user`: id and email. -/
structure SnipsConsoleUser where
  userId : String
  userEmail : String
deriving DecidableEq, Repr

/-- The token dict returned by the access-token exchange:
`{token, alias}`. -/
structure AccessToken where
  token : String
  aliasName : String
deriving DecidableEq, Repr

/-- A remote response as observed by the manager: HTTP status, the
`authorization` response header (present on a successful auth call),
the `user` object of the auth response body, and the `token` dict of
the access-token response body.  A missing field models the
corresponding KeyError when the code reads it. -/
structure Response where
  status : Nat
  authorization : Option String
  user : Option SnipsConsoleUser
  accessToken : Option AccessToken
deriving DecidableEq, Repr

/-- The remote service as an oracle: the response to the n-th request
sent since the start of the run. -/
def Env := Nat → Response

/-- The four persisted configuration keys under the `project-alice`
parent.  The empty string is the cleared value the source writes on
logout and on 401 handling. -/
structure SnipsConfig where
  console_token : String
  console_alias : String
  console_user_id : String
  console_user_email : String
deriving DecidableEq, Repr

/-- All four persisted keys cleared (written as `''`). -/
def clearedConfig : SnipsConfig :=
  { console_token := ""
    console_alias := ""
    console_user_id := ""
    console_user_email := "" }

/-- The manager's mutable state: `self._connected`, `self._tries`,
`self._user`, the `Authorization` entry of `self._headers`, the four
persisted configuration keys, and the count of requests sent so far
(the oracle's cursor). -/
structure ConsoleState where
  connected : Bool
  tries : Nat
  user : Option SnipsConsoleUser
  authorization : Option String
  config : SnipsConfig
  reqCount : Nat
deriving DecidableEq, Repr

/-- One request as actually sent on the wire: its url path and the
`Authorization` header it carried. -/
structure SentRequest where
  url : String
  authorization : Option String
deriving DecidableEq, Repr

/-- Path of the authentication request (line 77). -/
def authUrl : String := "/v1/user/auth"

/-- Path of the access-token exchange request (line 110). -/
def accessTokenUrl (userId : String) : String :=
  "/v1/user/" ++ userId ++ "/accesstoken"

/-- Path of the token-revocation request sent by `_logout` (line 181). -/
def revokeUrl (userId aliasName : String) : String :=
  "/v1/user/" ++ userId ++ "/accesstoken/" ++ aliasName

mutual

/-- `_req` (lines 198-220): send the request recording the current
`Authorization` header, and on a 401 response drop the header, mark
disconnected, clear the four persisted keys and call `_login`, before
returning the original response unchanged.  `fuel` bounds the mutual
recursion with `_login`; at fuel 0 the nested `_login` call is skipped. -/
def reqSend : Nat → Env → ConsoleState → String →
    Response × ConsoleState × List SentRequest
  | fuel, env, st, url =>
    let resp := env st.reqCount
    let entry : SentRequest := { url := url, authorization := st.authorization }
    let st1 : ConsoleState := { st with reqCount := st.reqCount + 1 }
    if resp.status = 401 then
      let st2 : ConsoleState :=
        { st1 with authorization := none, connected := false,
                   config := clearedConfig }
      match fuel with
      | 0 => (resp, st2, [entry])
      | fuel' + 1 =>
        let r := loginAttempt fuel' env st2
        (resp, r.1, entry :: r.2)
    else
      (resp, st1, [entry])

/-- `_getAccessToken` (lines 107-113): put the raw bearer token into
the `Authorization` header, post to the access-token endpoint, and
return the token dict on a 201 response, the empty dict otherwise.
A `none` user models the AttributeError the source would raise building
the url (no request is sent). -/
def getAccessToken : Nat → Env → ConsoleState → String →
    Option AccessToken × ConsoleState × List SentRequest
  | fuel, env, st, token =>
    let st1 : ConsoleState := { st with authorization := some token }
    match st1.user with
    | none => (none, st1, [])
    | some u =>
      match fuel with
      | 0 => (none, st1, [])
      | fuel' + 1 =>
        let r := reqSend fuel' env st1 (accessTokenUrl u.userId)
        if r.1.status = 201 then
          (r.1.accessToken, r.2.1, r.2.2)
        else
          (none, r.2.1, r.2.2)

/-- `_login` (lines 64-104): bump the attempt counter and give up
(resetting it) past 3 tries; otherwise post the credentials.  On a 200
response, read the bearer token from the response header and the user
from the body, exchange the bearer token, and only if the exchange
succeeded persist the four keys, set the `JWT` header, mark connected
and reset the counter; any failure in that block marks disconnected
(the source's except clause).  A non-200 response marks disconnected. -/
def loginAttempt : Nat → Env → ConsoleState → ConsoleState × List SentRequest
  | fuel, env, st =>
    let st1 : ConsoleState := { st with tries := st.tries + 1 }
    if st1.tries > 3 then
      ({ st1 with tries := 0 }, [])
    else
      match fuel with
      | 0 => (st1, [])
      | fuel' + 1 =>
        let r := reqSend fuel' env st1 authUrl
        let resp := r.1
        let st2 := r.2.1
        let tr1 := r.2.2
        if resp.status = 200 then
          match resp.authorization with
          | none => ({ st2 with connected := false }, tr1)
          | some token =>
            match resp.user with
            | none => ({ st2 with connected := false }, tr1)
            | some u =>
              let st3 : ConsoleState := { st2 with user := some u }
              let g := getAccessToken fuel' env st3 token
              match g.1 with
              | some ak =>
                let st4 := g.2.1
                let uNow := st4.user.getD u
                let st5 : ConsoleState :=
                  { st4 with
                    config :=
                      { console_token := ak.token
                        console_alias := ak.aliasName
                        console_user_id := uNow.userId
                        console_user_email := uNow.userEmail }
                    authorization := some ("JWT " ++ ak.token)
                    connected := true
                    tries := 0 }
                (st5, tr1 ++ g.2.2)
              | none =>
                ({ g.2.1 with connected := false }, tr1 ++ g.2.2)
        else
          ({ st2 with connected := false }, tr1)

end

/-- `_logout` (lines 180-188): hit the revocation endpoint, then drop
the `Authorization` header, mark disconnected and clear all four
persisted keys.  A `none` user models the AttributeError the source
would raise building the url. -/
def logout (fuel : Nat) (env : Env) (st : ConsoleState) :
    ConsoleState × List SentRequest :=
  match st.user with
  | none => (st, [])
  | some u =>
    let r := reqSend fuel env st (revokeUrl u.userId st.config.console_alias)
    ({ r.2.1 with authorization := none, connected := false,
                  config := clearedConfig }, r.2.2)

/-- The public `login` (lines 191-195): refuse when already connected,
otherwise delegate to `_login`. -/
def login (fuel : Nat) (env : Env) (st : ConsoleState) :
    ConsoleState × List SentRequest :=
  if st.connected then (st, []) else loginAttempt fuel env st

/-! ### Derived predicates used in the statements -/

/-- A command trace in which no `train ASR` command occurs before the
first `train NLU` command: with only the two command kinds this holds
exactly when the trace does not start with `train ASR`. -/
def noAsrBeforeNlu : List Cmd → Bool
  | [] => true
  | Cmd.trainNLU :: _ => true
  | Cmd.trainASR :: _ => false

/-- How many of the sent requests went to a given url path. -/
def urlCount (url : String) (tr : List SentRequest) : Nat :=
  tr.countP (fun e => e.url == url)

/-- All four persisted keys hold a non-empty value. -/
def fullyPresent (c : SnipsConfig) : Bool :=
  c.console_token != "" && c.console_alias != "" &&
  c.console_user_id != "" && c.console_user_email != ""

/-- All four persisted keys hold the cleared value `''`. -/
def fullyAbsent (c : SnipsConfig) : Bool :=
  c.console_token == "" && c.console_alias == "" &&
  c.console_user_id == "" && c.console_user_email == ""

/-- The persisted credentials are either fully present or fully
absent (the invariant of the spec's data model). -/
def allOrNothing (c : SnipsConfig) : Bool :=
  fullyPresent c || fullyAbsent c

/-- A user value, when present, has non-empty id and email. -/
def goodUserOpt : Option SnipsConsoleUser → Bool
  | none => true
  | some u => u.userId != "" && u.userEmail != ""

/-- A token value, when present, has non-empty token and alias. -/
def goodTokenOpt : Option AccessToken → Bool
  | none => true
  | some ak => ak.token != "" && ak.aliasName != ""

/-- State well-formedness carried through the authentication flow:
credentials all-or-nothing and a well-formed in-memory user. -/
def goodState (st : ConsoleState) : Bool :=
  allOrNothing st.config && goodUserOpt st.user

/-- A response whose credential payloads, when present, are non-empty
strings (the remote service hands out real identifiers and tokens). -/
def goodResponse (r : Response) : Bool :=
  goodUserOpt r.user && goodTokenOpt r.accessToken

/-- An oracle all of whose responses are well-formed. -/
def goodEnv (env : Env) : Prop :=
  ∀ n, goodResponse (env n) = true

/-- The state `_req` hands to `_login` after seeing a 401: cursor
advanced past the failed request, `Authorization` header dropped,
disconnected, and all four persisted keys cleared. -/
def expiredState (st : ConsoleState) : ConsoleState :=
  { st with reqCount := st.reqCount + 1, authorization := none,
            connected := false, config := clearedConfig }

/-! ### Concrete inputs for witnesses and counterexamples -/

/-- Both sub-models need training, neither is in progress. -/
def statusBothNeed : TrainingStatusResponse :=
  { nluStatus := { needTraining := true, inProgress := false }
    asrStatus := { needTraining := true, inProgress := false } }

/-- NLU training in progress, ASR still needing training. -/
def statusNluBusy : TrainingStatusResponse :=
  { nluStatus := { needTraining := false, inProgress := true }
    asrStatus := { needTraining := true, inProgress := false } }

/-- NLU done, ASR training in progress. -/
def statusAsrBusy : TrainingStatusResponse :=
  { nluStatus := { needTraining := false, inProgress := false }
    asrStatus := { needTraining := false, inProgress := true } }

/-- Both sub-models idle and trained. -/
def statusAllIdle : TrainingStatusResponse :=
  { nluStatus := { needTraining := false, inProgress := false }
    asrStatus := { needTraining := false, inProgress := false } }

/-- The end-to-end status sequence named by the spec's scenario. -/
def specScenario : List TickInput :=
  [Except.ok statusBothNeed, Except.ok statusNluBusy,
   Except.ok statusAsrBusy, Except.ok statusAllIdle]

/-- A download environment whose single tick terminates the poll loop
and whose fetch and write both succeed. -/
def dlEnvOk : DownloadEnv :=
  { ticks := [Except.ok statusAllIdle], fetchOk := true, writeOk := true }

/-- A remote user as returned by the first auth call. -/
def userA : SnipsConsoleUser := { userId := "uid1", userEmail := "usera@example.test" }

/-- A different remote user, returned by a nested re-login. -/
def userB : SnipsConsoleUser := { userId := "uid2", userEmail := "userb@example.test" }

/-- An access token granted by a successful exchange. -/
def tokenB : AccessToken := { token := "newtok", aliasName := "alias2" }

/-- A generic failure response carrying no payload. -/
def respServerError : Response :=
  { status := 500, authorization := none, user := none, accessToken := none }

/-- Oracle for the C7 counterexample: the auth call succeeds, the
access-token exchange answers 401, and the nested re-login triggered
by that 401 fully succeeds with a different user. -/
def envExchange401 : Env := fun n =>
  match n with
  | 0 => { status := 200, authorization := some ("bearer1"), user := some userA,
           accessToken := none }
  | 1 => { status := 401, authorization := none, user := none, accessToken := none }
  | 2 => { status := 200, authorization := some ("bearer2"), user := some userB,
           accessToken := none }
  | 3 => { status := 201, authorization := none, user := none,
           accessToken := some tokenB }
  | _ => respServerError

/-- Oracle for the C9 counterexample: the auth call succeeds handing
out a raw bearer token, and every later request (in particular the
access-token exchange) answers 400. -/
def envExchange400 : Env := fun n =>
  match n with
  | 0 => { status := 200, authorization := some ("rawBearer"), user := some userA,
           accessToken := none }
  | _ => { status := 400, authorization := none, user := none, accessToken := none }

/-- Oracle for a clean, fully successful login. -/
def envLoginOk : Env := fun n =>
  match n with
  | 0 => { status := 200, authorization := some ("bearer1"), user := some userA,
           accessToken := none }
  | 1 => { status := 201, authorization := none, user := none,
           accessToken := some tokenB }
  | _ => respServerError

/-- Oracle answering 401 to every request. -/
def envAll401 : Env := fun _ =>
  { status := 401, authorization := none, user := none, accessToken := none }

/-- The manager's state before any authentication. -/
def initialState : ConsoleState :=
  { connected := false, tries := 0, user := none, authorization := none,
    config := clearedConfig, reqCount := 0 }

/-- The state after the failed-exchange login of the C9 counterexample. -/
def afterBadExchange : ConsoleState := (loginAttempt 9 envExchange400 initialState).1

/-- Path of the list-assistants endpoint (line 117), used as a
representative non-authentication request. -/
def assistantsUrl : String := "/v3/assistant"

/-! ## Theorems -/

/-- C1: for every run of the `download` background task that returns
(success, ordinary raised failure, or fatal inconsistency alike), the
`SnipsAssistantDownload` event has been cleared exactly once: the clear
counter grows by exactly one and the event ends cleared; no returning
path leaves it active. -/
theorem download_clears_event_once (env : DownloadEnv) (ev : EventState)
    (h : (download env ev).1 ≠ none) :
    (download env ev).2.1.clearCalls = ev.clearCalls + 1 ∧
    (download env ev).2.1.eventSet = false := by
  rcases hres : handleTraining env.ticks with ⟨cmds, o⟩
  cases o with
  | completed =>
    by_cases hd : downloadTryTail env <;>
      simp [download, hres, hd, clearDownloadEvent]
  | raised => simp [download, hres, clearDownloadEvent]
  | stillLooping => simp [download, hres] at h

/-- Witness for C1: a concrete successful run clears the event once. -/
theorem download_clears_event_once_witness :
    (download dlEnvOk { eventSet := true, clearCalls := 0 }).2.1.clearCalls = 0 + 1 ∧
    (download dlEnvOk { eventSet := true, clearCalls := 0 }).2.1.eventSet = false :=
  download_clears_event_once dlEnvOk { eventSet := true, clearCalls := 0 } (by decide)

/-- C2 counterexample: a tick where both sub-models report
`needsTraining=false, inProgress=false`, arriving right after a
non-Done tick, terminates the loop in Done; it does not raise the
inconsistency error, contrary to the claim. -/
theorem idle_tick_after_non_done_completes :
    handleTraining [Except.ok statusBothNeed, Except.ok statusAllIdle] =
      ([Cmd.trainNLU], TrainOutcome.completed) ∧
    classify statusAllIdle = TickResult.done := by decide

/-- C2 amended: for any status pair where both sub-models report
`needsTraining=false, inProgress=false`, the poller terminates in Done
on that tick — it clears the loop lock, stops polling and never raises
the inconsistency error, regardless of what earlier ticks did; the
tick decision is memoryless. -/
theorem idle_pair_terminates_done (ts : TrainingStatusResponse)
    (rest : List TickInput)
    (h1 : ts.nluStatus.needTraining = false) (h2 : ts.nluStatus.inProgress = false)
    (h3 : ts.asrStatus.needTraining = false) (h4 : ts.asrStatus.inProgress = false) :
    classify ts = TickResult.done ∧
    handleTraining (Except.ok ts :: rest) = ([], TrainOutcome.completed) := by
  have hc : classify ts = TickResult.done := by
    simp [classify, h1, h2, h3, h4]
  exact ⟨hc, by simp [handleTraining, hc]⟩

/-- Witness for the amended C2 at the all-idle status. -/
theorem idle_pair_terminates_done_witness :
    classify statusAllIdle = TickResult.done ∧
    handleTraining [Except.ok statusAllIdle] = ([], TrainOutcome.completed) :=
  idle_pair_terminates_done statusAllIdle [] rfl rfl rfl rfl

/-- C3: on any tick where both sub-models report `needsTraining=true,
inProgress=false`, the poller issues `train NLU` (and hence not
`train ASR`) on that tick, and in the whole command trace of any run
starting from such a tick no `train ASR` command precedes the first
`train NLU` command. -/
theorem both_need_trains_nlu_first (ts : TrainingStatusResponse)
    (rest : List TickInput)
    (h1 : ts.nluStatus.needTraining = true) (h2 : ts.asrStatus.needTraining = true)
    (h3 : ts.nluStatus.inProgress = false) (h4 : ts.asrStatus.inProgress = false) :
    classify ts = TickResult.trainNLU ∧
    noAsrBeforeNlu (handleTraining (Except.ok ts :: rest)).1 = true := by
  have hc : classify ts = TickResult.trainNLU := by
    simp [classify, h1, h2, h3, h4]
  refine ⟨hc, ?_⟩
  simp [handleTraining, hc, noAsrBeforeNlu]

/-- Witness for C3 at the both-need status followed by the rest of the
spec scenario. -/
theorem both_need_trains_nlu_first_witness :
    classify statusBothNeed = TickResult.trainNLU ∧
    noAsrBeforeNlu (handleTraining (Except.ok statusBothNeed ::
      [Except.ok statusNluBusy, Except.ok statusAsrBusy,
       Except.ok statusAllIdle])).1 = true :=
  both_need_trains_nlu_first statusBothNeed
    [Except.ok statusNluBusy, Except.ok statusAsrBusy, Except.ok statusAllIdle]
    rfl rfl rfl rfl

/-- C4 counterexample: running the poll loop on the spec's status
sequence issues exactly one `train NLU` and zero `train ASR` commands
(ticks two and three report a sub-model in progress, so the loop only
waits); the claimed single `train ASR` command never happens. -/
theorem spec_scenario_issues_no_asr :
    handleTraining specScenario = ([Cmd.trainNLU], TrainOutcome.completed) ∧
    (handleTraining specScenario).1.count Cmd.trainASR = 0 ∧
    (handleTraining specScenario).1.count Cmd.trainNLU = 1 := by decide

/-- C4 amended: the spec's status sequence yields exactly one
`train NLU` command and no `train ASR` command, and the loop is still
polling after three ticks and terminates in Done exactly on the fourth
tick. -/
theorem spec_scenario_one_nlu_done_fourth :
    handleTraining specScenario = ([Cmd.trainNLU], TrainOutcome.completed) ∧
    handleTraining (specScenario.take 3) =
      ([Cmd.trainNLU], TrainOutcome.stillLooping) := by decide

/-- C10: for every one of the 16 boolean combinations of the fetched
status pair, a poll tick takes one of the four defined branches; the
final inconsistency branch is unreachable for any single status. -/
theorem tick_branch_always_defined (ts : TrainingStatusResponse) :
    classify ts = TickResult.done ∨ classify ts = TickResult.wait ∨
    classify ts = TickResult.trainNLU ∨ classify ts = TickResult.trainASR := by
  rcases ts with ⟨⟨n1, p1⟩, ⟨n2, p2⟩⟩
  cases n1 <;> cases p1 <;> cases n2 <;> cases p2 <;> decide

/-! ### Helper lemmas about the authentication flow -/

/-- The response `_req` hands back is always the oracle's answer at the
current cursor, whatever the status was. -/
theorem reqSend_resp (fuel : Nat) (env : Env) (st : ConsoleState) (url : String) :
    (reqSend fuel env st url).1 = env st.reqCount := by
  cases fuel <;> by_cases h401 : (env st.reqCount).status = 401 <;>
    simp [reqSend, h401]

/-- On any non-401 response, `_req` only advances the cursor and
records the one request it sent. -/
theorem reqSend_non401 (fuel : Nat) (env : Env) (st : ConsoleState) (url : String)
    (h : (env st.reqCount).status ≠ 401) :
    reqSend fuel env st url =
      (env st.reqCount, { st with reqCount := st.reqCount + 1 },
       [{ url := url, authorization := st.authorization }]) := by
  cases fuel <;> simp [reqSend, h]

/-- A `_login` entered with the counter already at 3 (so this would be
the 4th consecutive try) resets the counter and returns without
sending any request or touching any other field. -/
theorem loginAttempt_giveup (fuel : Nat) (env : Env) (st : ConsoleState)
    (h : 3 ≤ st.tries) :
    loginAttempt fuel env st = ({ st with tries := 0 }, []) := by
  have hgt : st.tries + 1 > 3 := by omega
  cases fuel with
  | zero => simp [loginAttempt, hgt]
  | succ n => simp [loginAttempt, hgt]

/-- Full characterisation of a clean, successful `_login`: auth call
answers 200 with a bearer token and a user, the exchange answers 201
with a token dict; the run persists the four keys, sets the `JWT`
header, marks connected, resets the counter, and sent exactly the auth
request and the exchange request (the latter with the raw bearer token
in the header). -/
theorem loginAttempt_success_eq (fuel : Nat) (env : Env) (st : ConsoleState)
    (tok : String) (u : SnipsConsoleUser) (ak : AccessToken)
    (htries : st.tries + 1 ≤ 3)
    (h200 : (env st.reqCount).status = 200)
    (htok : (env st.reqCount).authorization = some tok)
    (huser : (env st.reqCount).user = some u)
    (h201 : (env (st.reqCount + 1)).status = 201)
    (hak : (env (st.reqCount + 1)).accessToken = some ak) :
    loginAttempt (fuel + 2) env st =
      ({ connected := true, tries := 0, user := some u,
         authorization := some ("JWT " ++ ak.token),
         config := { console_token := ak.token, console_alias := ak.aliasName,
                     console_user_id := u.userId, console_user_email := u.userEmail },
         reqCount := st.reqCount + 2 },
       [{ url := authUrl, authorization := st.authorization },
        { url := accessTokenUrl u.userId, authorization := some tok }]) := by
  have hn : ¬ (st.tries + 1 > 3) := by omega
  simp [loginAttempt, reqSend, getAccessToken, hn, h200, htok, huser, h201, hak]

/-- Full characterisation of a `_login` whose access-token exchange
fails with a status other than 201 and other than 401: the state keeps
its persisted keys, the raw bearer token is left in the header, the
counter keeps the failed attempt, and the session ends disconnected. -/
theorem loginAttempt_exchangeFail_eq (fuel : Nat) (env : Env) (st : ConsoleState)
    (tok : String) (u : SnipsConsoleUser)
    (htries : st.tries + 1 ≤ 3)
    (h200 : (env st.reqCount).status = 200)
    (htok : (env st.reqCount).authorization = some tok)
    (huser : (env st.reqCount).user = some u)
    (hne : (env (st.reqCount + 1)).status ≠ 201)
    (hn401 : (env (st.reqCount + 1)).status ≠ 401) :
    loginAttempt (fuel + 2) env st =
      ({ connected := false, tries := st.tries + 1, user := some u,
         authorization := some tok,
         config := st.config,
         reqCount := st.reqCount + 2 },
       [{ url := authUrl, authorization := st.authorization },
        { url := accessTokenUrl u.userId, authorization := some tok }]) := by
  have hn : ¬ (st.tries + 1 > 3) := by omega
  simp [loginAttempt, reqSend, getAccessToken, hn, h200, htok, huser, hne, hn401]

/-- Every request that `_req`, `_getAccessToken` or `_login` sends is
either the one it was asked to send, the auth request, or an
access-token exchange request: the login flow never re-sends any other
url. -/
theorem trace_urls (fuel : Nat) :
    (∀ (env : Env) (st : ConsoleState) (url : String) (e : SentRequest),
        e ∈ (reqSend fuel env st url).2.2 →
        e.url = url ∨ e.url = authUrl ∨ ∃ uid, e.url = accessTokenUrl uid) ∧
    (∀ (env : Env) (st : ConsoleState) (tok : String) (e : SentRequest),
        e ∈ (getAccessToken fuel env st tok).2.2 →
        e.url = authUrl ∨ ∃ uid, e.url = accessTokenUrl uid) ∧
    (∀ (env : Env) (st : ConsoleState) (e : SentRequest),
        e ∈ (loginAttempt fuel env st).2 →
        e.url = authUrl ∨ ∃ uid, e.url = accessTokenUrl uid) := by
  induction fuel with
  | zero =>
    refine ⟨?_, ?_, ?_⟩
    · intro env st url e he
      by_cases h401 : (env st.reqCount).status = 401 <;>
        simp [reqSend, h401] at he <;> simp [he]
    · intro env st tok e he
      rcases hu : st.user with _ | u <;> simp [getAccessToken, hu] at he
    · intro env st e he
      by_cases h3 : st.tries + 1 > 3 <;> simp [loginAttempt, h3] at he
  | succ n ih =>
    obtain ⟨ihReq, ihGet, ihLogin⟩ := ih
    refine ⟨?_, ?_, ?_⟩
    · intro env st url e he
      by_cases h401 : (env st.reqCount).status = 401
      · simp [reqSend, h401] at he
        rcases he with he | he
        · simp [he]
        · exact Or.inr (ihLogin env _ e he)
      · simp [reqSend, h401] at he
        simp [he]
    · intro env st tok e he
      rcases hu : st.user with _ | u
      · simp [getAccessToken, hu] at he
      · simp [getAccessToken, hu] at he
        split at he <;>
        · simp at he
          rcases ihReq env _ _ e he with h | h | h
          · exact Or.inr ⟨u.userId, h⟩
          · exact Or.inl h
          · exact Or.inr h
    · intro env st e he
      by_cases h3 : st.tries + 1 > 3
      · simp [loginAttempt, h3] at he
      · simp [loginAttempt, h3] at he
        split at he
        · split at he
          · simp at he
            rcases ihReq env _ _ e he with h | h | h
            · exact Or.inl h
            · exact Or.inl h
            · exact Or.inr h
          · split at he
            · simp at he
              rcases ihReq env _ _ e he with h | h | h
              · exact Or.inl h
              · exact Or.inl h
              · exact Or.inr h
            · split at he <;>
              · simp at he
                rcases he with he | he
                · rcases ihReq env _ _ e he with h | h | h
                  · exact Or.inl h
                  · exact Or.inl h
                  · exact Or.inr h
                · exact ihGet env _ _ e he
        · simp at he
          rcases ihReq env _ _ e he with h | h | h
          · exact Or.inl h
          · exact Or.inl h
          · exact Or.inr h

/-- An access token returned by `_getAccessToken` always comes from
some oracle response's token payload. -/
theorem getAccessToken_some (fuel : Nat) (env : Env) (st : ConsoleState)
    (tok : String) (ak : AccessToken)
    (h : (getAccessToken fuel env st tok).1 = some ak) :
    ∃ m, (env m).accessToken = some ak := by
  rcases hu : st.user with _ | u
  · cases fuel <;> simp [getAccessToken, hu] at h
  · cases fuel with
    | zero => simp [getAccessToken, hu] at h
    | succ n =>
      simp [getAccessToken, hu] at h
      split at h
      · refine ⟨st.reqCount, ?_⟩
        have h2 : (reqSend n env { st with authorization := some tok }
            (accessTokenUrl u.userId)).1 = env st.reqCount :=
          reqSend_resp n env { st with authorization := some tok }
            (accessTokenUrl u.userId)
        rw [hu] at h2
        rw [h2] at h
        exact h
      · simp at h

/-- The attempt counter stays bounded by 3 through `_req`,
`_getAccessToken` and `_login`, nested 401 re-logins included. -/
theorem tries_bound (fuel : Nat) :
    (∀ (env : Env) (st : ConsoleState) (url : String), st.tries ≤ 3 →
        (reqSend fuel env st url).2.1.tries ≤ 3) ∧
    (∀ (env : Env) (st : ConsoleState) (tok : String), st.tries ≤ 3 →
        (getAccessToken fuel env st tok).2.1.tries ≤ 3) ∧
    (∀ (env : Env) (st : ConsoleState), st.tries ≤ 3 →
        (loginAttempt fuel env st).1.tries ≤ 3) := by
  induction fuel with
  | zero =>
    refine ⟨?_, ?_, ?_⟩
    · intro env st url h
      by_cases h401 : (env st.reqCount).status = 401 <;> simp [reqSend, h401, h]
    · intro env st tok h
      rcases hu : st.user with _ | u <;> simp [getAccessToken, hu, h]
    · intro env st h
      by_cases h3 : st.tries + 1 > 3
      · simp [loginAttempt, h3]
      · simp [loginAttempt, h3]
        omega
  | succ n ih =>
    obtain ⟨ihReq, ihGet, ihLogin⟩ := ih
    refine ⟨?_, ?_, ?_⟩
    · intro env st url h
      by_cases h401 : (env st.reqCount).status = 401
      · simp [reqSend, h401]
        exact ihLogin env _ h
      · simp [reqSend, h401, h]
    · intro env st tok h
      rcases hu : st.user with _ | u
      · simp [getAccessToken, hu, h]
      · simp [getAccessToken, hu]
        split
        · simp
          exact ihReq env _ _ h
        · simp
          exact ihReq env _ _ h
    · intro env st h
      by_cases h3 : st.tries + 1 > 3
      · simp [loginAttempt, h3]
      · have h1 : st.tries + 1 ≤ 3 := by omega
        have hr := ihReq env { st with tries := st.tries + 1 } authUrl h1
        simp [loginAttempt, h3]
        split
        · split
          · simpa using hr
          · rename_i token heqtok
            split
            · simpa using hr
            · rename_i u hequ
              have hg := ihGet env
                { (reqSend n env { st with tries := st.tries + 1 } authUrl).2.1 with
                  user := some u } token hr
              split
              · simp
              · simpa using hg
        · simpa using hr

/-- Credential well-formedness (keys all-or-nothing, user well formed)
is preserved by `_req`, `_getAccessToken` and `_login` whenever the
oracle hands out non-empty credential payloads. -/
theorem goodState_preserved (fuel : Nat) :
    (∀ (env : Env) (st : ConsoleState) (url : String), goodEnv env →
        goodState st = true → goodState (reqSend fuel env st url).2.1 = true) ∧
    (∀ (env : Env) (st : ConsoleState) (tok : String), goodEnv env →
        goodState st = true → goodState (getAccessToken fuel env st tok).2.1 = true) ∧
    (∀ (env : Env) (st : ConsoleState), goodEnv env →
        goodState st = true → goodState (loginAttempt fuel env st).1 = true) := by
  induction fuel with
  | zero =>
    refine ⟨?_, ?_, ?_⟩
    · intro env st url hg hs
      simp [goodState] at hs
      obtain ⟨hao, hgu⟩ := hs
      by_cases h401 : (env st.reqCount).status = 401
      · simp [reqSend, h401, goodState, hgu]
        decide
      · simp [reqSend, h401, goodState, hgu, hao]
    · intro env st tok hg hs
      simp [goodState] at hs
      obtain ⟨hao, hgu⟩ := hs
      rcases hu : st.user with _ | u
      · simp [getAccessToken, hu, goodState, hao, goodUserOpt]
      · rw [hu] at hgu
        simp [getAccessToken, hu, goodState, hao, hgu]
    · intro env st hg hs
      simp [goodState] at hs
      obtain ⟨hao, hgu⟩ := hs
      by_cases h3 : st.tries + 1 > 3 <;>
        simp [loginAttempt, h3, goodState, hao, hgu]
  | succ n ih =>
    obtain ⟨ihReq, ihGet, ihLogin⟩ := ih
    refine ⟨?_, ?_, ?_⟩
    · intro env st url hg hs
      simp [goodState] at hs
      obtain ⟨hao, hgu⟩ := hs
      by_cases h401 : (env st.reqCount).status = 401
      · simp [reqSend, h401]
        refine ihLogin env _ hg ?_
        simp [goodState, hgu]
        decide
      · simp [reqSend, h401, goodState, hgu, hao]
    · intro env st tok hg hs
      simp [goodState] at hs
      obtain ⟨hao, hgu⟩ := hs
      rcases hu : st.user with _ | u
      · simp [getAccessToken, hu, goodState, hao, goodUserOpt]
      · rw [hu] at hgu
        simp [getAccessToken, hu]
        have hs1 : goodState
            { st with user := some u, authorization := some tok } = true := by
          simp [goodState, hao, hgu]
        split
        · simp
          exact ihReq env _ _ hg hs1
        · simp
          exact ihReq env _ _ hg hs1
    · intro env st hg hs
      by_cases h3 : st.tries + 1 > 3
      · simp [goodState] at hs
        simp [loginAttempt, h3, goodState, hs.1, hs.2]
      · have hs1 : goodState { st with tries := st.tries + 1 } = true := by
          simpa [goodState] using hs
        have hr := ihReq env { st with tries := st.tries + 1 } authUrl hg hs1
        simp [loginAttempt, h3]
        split
        · split
          · simpa [goodState] using hr
          · rename_i token heqtok
            split
            · simpa [goodState] using hr
            · rename_i u hequ
              have h2 : (reqSend n env { st with tries := st.tries + 1 } authUrl).1 =
                  env st.reqCount :=
                reqSend_resp n env { st with tries := st.tries + 1 } authUrl
              rw [h2] at hequ
              have hgood := hg st.reqCount
              simp [goodResponse] at hgood
              obtain ⟨hgoodU, _⟩ := hgood
              rw [hequ] at hgoodU
              simp [goodState] at hr
              have hs3 : goodState
                  { (reqSend n env { st with tries := st.tries + 1 } authUrl).2.1 with
                    user := some u } = true := by
                simp [goodState, hr.1, hgoodU]
              have hgSt := ihGet env
                { (reqSend n env { st with tries := st.tries + 1 } authUrl).2.1 with
                  user := some u } token hg hs3
              split
              · rename_i ak heqak
                obtain ⟨m, hm⟩ := getAccessToken_some n env
                  { (reqSend n env { st with tries := st.tries + 1 } authUrl).2.1 with
                    user := some u } token ak heqak
                have htokgood := hg m
                simp [goodResponse] at htokgood
                obtain ⟨_, htok⟩ := htokgood
                rw [hm] at htok
                simp [goodTokenOpt] at htok
                have hgu2 := hgoodU
                simp [goodUserOpt] at hgu2
                simp [goodState] at hgSt
                obtain ⟨hao4, hu4⟩ := hgSt
                rcases hv : (getAccessToken n env
                    { (reqSend n env { st with tries := st.tries + 1 } authUrl).2.1 with
                      user := some u } token).2.1.user with _ | v
                · simp [goodState, hv, allOrNothing, fullyPresent, goodUserOpt,
                        htok.1, htok.2, hgu2.1, hgu2.2]
                · rw [hv] at hu4
                  simp [goodUserOpt] at hu4
                  simp [goodState, hv, allOrNothing, fullyPresent, goodUserOpt,
                        htok.1, htok.2, hu4.1, hu4.2]
              · simpa [goodState] using hgSt
        · simpa [goodState] using hr

/-- C5: on a 401 response `_req` removes the Authorization header,
marks the session unauthenticated, clears the four persisted credential
keys, and only then triggers a `_login` attempt (which receives exactly
that cleared state), before returning the original 401 response
unchanged to the caller; every extra request sent is a login-flow
request (auth or access-token exchange), so the request that triggered
the 401 is not retried; and a response with any other status code
triggers none of this handling — the state changes only by the
advanced request cursor. -/
theorem req_401_clears_and_relogins (fuel : Nat) (env : Env)
    (st : ConsoleState) (url : String) :
    ((env st.reqCount).status = 401 →
      reqSend (fuel + 1) env st url =
        (env st.reqCount, (loginAttempt fuel env (expiredState st)).1,
         { url := url, authorization := st.authorization } ::
           (loginAttempt fuel env (expiredState st)).2) ∧
      ∀ e ∈ (loginAttempt fuel env (expiredState st)).2,
        e.url = authUrl ∨ ∃ uid, e.url = accessTokenUrl uid) ∧
    ((env st.reqCount).status ≠ 401 →
      reqSend (fuel + 1) env st url =
        (env st.reqCount, { st with reqCount := st.reqCount + 1 },
         [{ url := url, authorization := st.authorization }])) := by
  constructor
  · intro h401
    constructor
    · simp [reqSend, h401, expiredState]
    · intro e he
      exact (trace_urls fuel).2.2 env (expiredState st) e he
  · intro h401
    exact reqSend_non401 (fuel + 1) env st url h401

/-- Witness for C5: a concrete 401 on the list-assistants request
clears the state, runs the re-login on the cleared state, returns the
original response, and sends only login-flow requests afterwards. -/
theorem req_401_clears_and_relogins_witness :
    (reqSend 6 envAll401 initialState assistantsUrl =
      (envAll401 initialState.reqCount,
       (loginAttempt 5 envAll401 (expiredState initialState)).1,
       { url := assistantsUrl, authorization := initialState.authorization } ::
         (loginAttempt 5 envAll401 (expiredState initialState)).2) ∧
     ∀ e ∈ (loginAttempt 5 envAll401 (expiredState initialState)).2,
       e.url = authUrl ∨ ∃ uid, e.url = accessTokenUrl uid) :=
  (req_401_clears_and_relogins 5 envAll401 initialState assistantsUrl).1 rfl

/-- C6: the login attempt counter never exceeds 3 consecutive
failures: a `_login` call that would be the 4th consecutive try resets
the counter to 0 and returns without sending any request (give-up, not
crash); the counter stays bounded by 3 across any `_login` call, 401
re-login nesting included; and a fully successful login resets the
counter to 0. -/
theorem login_tries_bounded (fuel : Nat) (env : Env) (st : ConsoleState) :
    (3 ≤ st.tries →
      loginAttempt fuel env st = ({ st with tries := 0 }, [])) ∧
    (st.tries ≤ 3 → (loginAttempt fuel env st).1.tries ≤ 3) ∧
    (∀ (tok : String) (u : SnipsConsoleUser) (ak : AccessToken),
      st.tries + 1 ≤ 3 →
      (env st.reqCount).status = 200 →
      (env st.reqCount).authorization = some tok →
      (env st.reqCount).user = some u →
      (env (st.reqCount + 1)).status = 201 →
      (env (st.reqCount + 1)).accessToken = some ak →
      (loginAttempt (fuel + 2) env st).1.tries = 0 ∧
      (loginAttempt (fuel + 2) env st).1.connected = true) := by
  refine ⟨loginAttempt_giveup fuel env st, (tries_bound fuel).2.2 env st, ?_⟩
  intro tok u ak htries h200 htok huser h201 hak
  rw [loginAttempt_success_eq fuel env st tok u ak htries h200 htok huser h201 hak]
  exact ⟨rfl, rfl⟩

/-- Witness for C6: a 4th consecutive try gives up, resetting the
counter to 0 and sending nothing. -/
theorem login_tries_bounded_witness :
    loginAttempt 5 envAll401 { initialState with tries := 3 } =
      ({ initialState with tries := 0 }, []) :=
  (login_tries_bounded 5 envAll401 { initialState with tries := 3 }).1 (by decide)

/-- C7 counterexample: when the access-token exchange answers 401, the
401 handler inside `_req` clears the keys and runs a nested login that
persists fresh credentials; the failed exchange therefore does not
leave the persisted credential state unchanged — the run ends
unauthenticated yet with all four keys populated by the nested login,
although they were all empty at the start. -/
theorem exchange_401_persists_nested_credentials :
    initialState.config = clearedConfig ∧
    (loginAttempt 9 envExchange401 initialState).1.connected = false ∧
    (loginAttempt 9 envExchange401 initialState).1.config =
      { console_token := "newtok", console_alias := "alias2",
        console_user_id := "uid2", console_user_email := "userb@example.test" } := by
  exact ⟨rfl, rfl, rfl⟩

/-- C7 amended: if the access-token exchange fails with any status
other than 201 and other than 401, the login marks the session
unauthenticated and writes none of the four persisted credential keys
— the persisted state is exactly what it was; when the exchange fails
with 401 specifically, the generic expiry handling first clears the
four keys and triggers a nested re-login (which may itself persist
fresh credentials) before the outer login still ends unauthenticated. -/
theorem exchange_fail_non401_keeps_config (fuel : Nat) (env : Env)
    (st : ConsoleState) (tok : String) (u : SnipsConsoleUser)
    (htries : st.tries + 1 ≤ 3)
    (h200 : (env st.reqCount).status = 200)
    (htok : (env st.reqCount).authorization = some tok)
    (huser : (env st.reqCount).user = some u)
    (hne : (env (st.reqCount + 1)).status ≠ 201)
    (hn401 : (env (st.reqCount + 1)).status ≠ 401) :
    (loginAttempt (fuel + 2) env st).1.connected = false ∧
    (loginAttempt (fuel + 2) env st).1.config = st.config := by
  rw [loginAttempt_exchangeFail_eq fuel env st tok u htries h200 htok huser hne hn401]
  exact ⟨rfl, rfl⟩

/-- Witness for the amended C7: the exchange fails with 400 and the
(empty) persisted keys are untouched, session unauthenticated. -/
theorem exchange_fail_non401_keeps_config_witness :
    (loginAttempt 2 envExchange400 initialState).1.connected = false ∧
    (loginAttempt 2 envExchange400 initialState).1.config = initialState.config :=
  exchange_fail_non401_keeps_config 0 envExchange400 initialState
    ("rawBearer") userA (by decide) rfl rfl rfl (by decide) (by decide)

/-- C8: every operation that writes or resets any of the four
persisted credential keys — login, logout, and the 401 handling inside
`_req` — writes or clears all four together: starting from keys that
are fully present or fully absent (and a well-formed user), each of
the three operations leaves them fully present or fully absent, for
any oracle handing out non-empty credential payloads. -/
theorem credentials_written_as_unit (fuel : Nat) (env : Env) (st : ConsoleState)
    (hg : goodEnv env) (hs : goodState st = true) :
    allOrNothing (loginAttempt fuel env st).1.config = true ∧
    allOrNothing (logout fuel env st).1.config = true ∧
    ∀ url, allOrNothing (reqSend fuel env st url).2.1.config = true := by
  refine ⟨?_, ?_, ?_⟩
  · have h := (goodState_preserved fuel).2.2 env st hg hs
    simp [goodState] at h
    exact h.1
  · rcases hu : st.user with _ | u
    · simp [logout, hu]
      simp [goodState] at hs
      exact hs.1
    · simp [logout, hu]
      decide
  · intro url
    have h := (goodState_preserved fuel).1 env st url hg hs
    simp [goodState] at h
    exact h.1

/-- Witness for C8 on a concrete successful login oracle starting from
empty credentials. -/
theorem credentials_written_as_unit_witness :
    allOrNothing (loginAttempt 5 envLoginOk initialState).1.config = true ∧
    allOrNothing (logout 5 envLoginOk initialState).1.config = true ∧
    ∀ url, allOrNothing (reqSend 5 envLoginOk initialState url).2.1.config = true :=
  credentials_written_as_unit 5 envLoginOk initialState
    (fun n => by rcases n with _ | _ | n <;> rfl) (by decide)

/-- C9 counterexample: when the access-token exchange fails with a
400, the raw bearer token stays in the Authorization header after
`_login` returns, and the next request — here the list-assistants url,
not the exchange — is sent with that raw bearer token as its
Authorization header, contrary to the claim that no request after the
exchange step carries the raw token. -/
theorem raw_token_survives_failed_exchange :
    afterBadExchange.authorization = some ("rawBearer") ∧
    (reqSend 1 envExchange400 afterBadExchange assistantsUrl).2.2 =
      [{ url := assistantsUrl, authorization := some ("rawBearer") }] := by
  exact ⟨rfl, rfl⟩

/-- C9 amended: on the successful path the raw bearer token is carried
only by the access-token exchange request: a successful login sends
exactly the auth request (with the prior header) and the exchange
request (with the raw bearer token), and leaves `JWT <api token>` as
the Authorization header for subsequent requests; but when the
exchange fails with a non-401 status the raw bearer token remains in
the header and is sent on subsequent requests until a later login or
401 removes it. -/
theorem raw_token_only_during_exchange_on_success (fuel : Nat) (env : Env)
    (st : ConsoleState) (tok : String) (u : SnipsConsoleUser) (ak : AccessToken)
    (htries : st.tries + 1 ≤ 3)
    (h200 : (env st.reqCount).status = 200)
    (htok : (env st.reqCount).authorization = some tok)
    (huser : (env st.reqCount).user = some u)
    (h201 : (env (st.reqCount + 1)).status = 201)
    (hak : (env (st.reqCount + 1)).accessToken = some ak) :
    (loginAttempt (fuel + 2) env st).1.authorization =
      some ("JWT " ++ ak.token) ∧
    (loginAttempt (fuel + 2) env st).2 =
      [{ url := authUrl, authorization := st.authorization },
       { url := accessTokenUrl u.userId, authorization := some tok }] := by
  rw [loginAttempt_success_eq fuel env st tok u ak htries h200 htok huser h201 hak]
  exact ⟨rfl, rfl⟩

/-- Witness for the amended C9 on a concrete successful login. -/
theorem raw_token_only_during_exchange_on_success_witness :
    (loginAttempt 2 envLoginOk initialState).1.authorization =
      some ("JWT " ++ tokenB.token) ∧
    (loginAttempt 2 envLoginOk initialState).2 =
      [{ url := authUrl, authorization := initialState.authorization },
       { url := accessTokenUrl userA.userId, authorization := some ("bearer1") }] :=
  raw_token_only_during_exchange_on_success 0 envLoginOk initialState
    ("bearer1") userA tokenB (by decide) rfl rfl rfl rfl rfl

end SnipsConsole
